import Mathlib

/-!
Shallow embedding of the shelter ranking and filtering pipeline of
`paulsplacemd.py` (function `main` and its helpers).

Modelling conventions:
* Numeric values (coordinates, distances) are rationals `ℚ`.  The external
  libraries are parameters: the pyproj transformer is a function
  `tf : ℚ → ℚ → ℚ × ℚ` (returning `(lon, lat)`, as `always_xy=True` does),
  and geopy's `geodesic(...).miles` is a function
  `geod : ℚ × ℚ → ℚ × ℚ → ℚ` on `(lat, lon)` pairs.
* A raw API coordinate that is not numeric (the malformed case, on which
  `transformer.transform` raises and `convert_coordinates` catches) is
  modelled as `none` in the `Option ℚ` coordinate fields of `ApiRow`.
* `f"{x:.2f} miles"` followed by `.str.replace(' miles','').astype(float)`
  stores and later parses the distance rounded to two decimal places; this
  is `round2`.  Ties exactly at the third decimal (which Python's float
  formatting settles by binary round-half-even) are avoided in every
  concrete input used below.
* `sort_values` ascending by the parsed rounded value is modelled by the
  stable `List.insertionSort` keyed on the stored rounded distance.
-/

namespace PaulsPlace

/-- Hardcoded latitude of Paul's Place (line 21 of the script). -/
def pauls_place_lat : ℚ := 39.2820504

/-- Hardcoded longitude of Paul's Place (line 21 of the script). -/
def pauls_place_lon : ℚ := -76.6328439

/-- A raw record from the remote API fetch: the feature attributes used by
the script (`name`, `address`, projected `x_coord`/`y_coord`, and whatever
category value the remote source supplied in a `function` column).
A `none` coordinate models a malformed (non-numeric) raw value. -/
structure ApiRow where
  name : String
  address : String
  x_coord : Option ℚ
  y_coord : Option ℚ
  function : String
deriving DecidableEq, Repr

/-- A raw row of the secondary CSV file, with its own column names
(`Location`, `Latitude`, `Longitude`), lines 33 and 82. -/
structure CsvRow where
  Location : String
  Latitude : ℚ
  Longitude : ℚ
deriving DecidableEq, Repr

/-- A normalized shelter record (one row of `combined_df`). -/
structure Shelter where
  name : String
  address : String
  latitude : ℚ
  longitude : ℚ
  function : String
deriving DecidableEq, Repr

/-- Function `convert_coordinates` (lines 57-63): transform the projected
coordinates with the pyproj transformer `tf`, returning `(lat, lon)`;
a malformed coordinate raises, is caught, and yields the `None` pair,
modelled by `none`. -/
def convert_coordinates (tf : ℚ → ℚ → ℚ × ℚ) (r : ApiRow) : Option (ℚ × ℚ) :=
  match r.x_coord, r.y_coord with
  | some x, some y => some ((tf x y).2, (tf x y).1)
  | _, _ => none

/-- The per-record warnings `st.warning(f"Error converting coordinates for
shelter {row['name']}: {e}")` emitted on conversion failures (line 62). -/
def conversionDiagnostics (tf : ℚ → ℚ → ℚ × ℚ) (api : List ApiRow) : List String :=
  (api.filter (fun r => (convert_coordinates tf r).isNone)).map
    (fun r => "Error converting coordinates for shelter " ++ r.name)

/-- Function `load_csv_data` (lines 31-36): the CSV rows with every row whose
`Location` is exactly "Paul's Place" filtered out. -/
def load_csv_data (csv : List CsvRow) : List CsvRow :=
  csv.filter (fun r => r.Location != "Paul\x27s Place")

/-- One API row after coordinate conversion and `dropna` (lines 76-77):
`none` when the conversion failed and the row is dropped. -/
def apiToShelter (tf : ℚ → ℚ → ℚ × ℚ) (r : ApiRow) : Option Shelter :=
  (convert_coordinates tf r).map (fun p => ⟨r.name, r.address, p.1, p.2, r.function⟩)

/-- One CSV row after the column renaming and the filling of the missing
`address` and `function` columns (lines 82-85). -/
def csvToShelter (r : CsvRow) : Shelter :=
  ⟨r.Location, "Not Available", r.Latitude, r.Longitude, "Unknown"⟩

/-- Model of `combined_df` (lines 74-90): the converted API rows (failed conversions
dropped) concatenated with the renamed-and-filled CSV rows. -/
def merged (tf : ℚ → ℚ → ℚ × ℚ) (api : List ApiRow) (csv : List CsvRow) : List Shelter :=
  api.filterMap (apiToShelter tf) ++ (load_csv_data csv).map csvToShelter

/-- The static name → function mapping literal (lines 93-164). -/
def function_mapping : List (String × String) := [
  ("VOA Pratt House", "Emergency Shelters"),
  ("University of Maryland Medical Center", "Medical Services"),
  ("The Baltimore Station", "Emergency Shelters"),
  ("Christ Lutheran Place", "Emergency Shelters"),
  ("Grace Medical Center", "Medical Services"),
  ("American Rescue Workers", "Emergency Shelters"),
  ("ACC My Sister’s Place Lodge", "Emergency Shelters"),
  ("Seton Station", "Emergency Shelters"),
  ("Our Daily Bread", "Food & Meals"),
  ("Mercy Medical Center", "Medical Services"),
  ("Patrick Allison House", "Emergency Shelters"),
  ("Maryland Legal Aid", "Legal Services"),
  ("Interfaith ES", "Emergency Shelters"),
  ("Health Care for the Homeless", "Medical Services"),
  ("Weinberg Housing and Resource Center", "Emergency Shelters"),
  ("Maryland Center for Veterans Education and Training", "Veteran Services"),
  ("YWCA - Druid House", "Emergency Shelters"),
  ("ACC Christopher Place", "Emergency Shelters"),
  ("Chase Brexton Health Services", "Medical Services"),
  ("Code Blue J, H & R", "Emergency Shelters"),
  ("Helping Up Mission", "Emergency Shelters"),
  ("Salvation Army", "Emergency Shelters"),
  ("Karis House", "Emergency Shelters"),
  ("Baltimore Rescue Mission", "Emergency Shelters"),
  ("Aunt CC\x27s Harbor House", "Emergency Shelters"),
  ("Earl’s Place", "Emergency Shelters"),
  ("Umar Boxing", "Community Services"),
  ("Pennsylvania Avenue Library", "Community Services"),
  ("Orleans Street Library", "Community Services"),
  ("SVdP Ozanam House", "Emergency Shelters"),
  ("Project PLASE", "Emergency Shelters"),
  ("East Baltimore Medical Center", "Medical Services"),
  ("Cherry Hill Library", "Community Services"),
  ("MedStar Harbor Hospital", "Medical Services"),
  ("Baltimore Safe Haven", "Emergency Shelters"),
  ("Johns Hopkins Hospital", "Medical Services"),
  ("Franciscan Center", "Food & Meals"),
  ("Kennedy Krieger Institute", "Medical Services"),
  ("Youth Empowered Society (YES)", "Youth Services"),
  ("ACC Project FRESH Start", "Emergency Shelters"),
  ("St. Vincent de Paul of Baltimore", "Emergency Shelters"),
  ("Northwest One-Stop Career Center", "Employment Services"),
  ("Church of the Guardian Angel", "Community Services"),
  ("At Jacob’s Well", "Emergency Shelters"),
  ("Prisoner’s Aid", "Legal Services"),
  ("Manna House", "Emergency Shelters"),
  ("Supportive Housing Group/Lanvale Institute", "Housing Services"),
  ("Collington Square", "Community Services"),
  ("Dayspring Village", "Housing Services"),
  ("J, H & R - VA", "Veteran Services"),
  ("J, H & R - Carrington House", "Veteran Services"),
  ("Sacred House", "Community Services"),
  ("Eastside One-Stop Career Center", "Employment Services"),
  ("Brooklyn Library", "Community Services"),
  ("Marian House", "Housing Services"),
  ("MedStar Union Memorial Hospital", "Medical Services"),
  ("SVdP Cottage Avenue", "Emergency Shelters"),
  ("Southeast Anchor Library", "Community Services"),
  ("Grace Baptist Church", "Community Services"),
  ("BMHS Ethel Elan Safe Haven II", "Emergency Shelters"),
  ("BMHS Safe Haven I", "Emergency Shelters"),
  ("Johns Hopkins Bayview Medical Center", "Medical Services"),
  ("Maryland Food Bank", "Food & Meals"),
  ("Park West Health System | Belvedere Ave.", "Medical Services"),
  ("Sinai Hospital", "Medical Services"),
  ("Levindale Hebrew Geriatric Center and Hospital", "Medical Services"),
  ("Mt. Washington Pediatric Hospital", "Medical Services"),
  ("MedStar Good Samaritan Hospital", "Medical Services"),
  ("Harbel Community Organization", "Community Services")]

/-- Line 167: `combined_df['function'] =
combined_df['name'].map(function_mapping).fillna("Unknown")` — the
function column is recomputed for every row from the name alone. -/
def enrich (s : Shelter) : Shelter :=
  { s with function := (function_mapping.lookup s.name).getD "Unknown" }

/-- Function `calculate_distance` (lines 174-175): geodesic miles from Paul's Place
to the record's position; the geodesic library call is the parameter. -/
def calculate_distance (geod : ℚ × ℚ → ℚ × ℚ → ℚ) (s : Shelter) : ℚ :=
  geod (pauls_place_lat, pauls_place_lon) (s.latitude, s.longitude)

/-- Rounding to two decimal places: the composite of formatting with
`f"{x:.2f} miles"` (line 181) and parsing the number back with
`.str.replace(' miles', '').astype(float)` (lines 184 and 192). -/
def round2 (q : ℚ) : ℚ := (⌊q * 100 + 1 / 2⌋ : ℤ) / 100

/-- Lines 178 and 181: each record paired with its stored
`distance_to_pauls_place` column, which after the formatting holds the
rounded value. -/
def withDistance (geod : ℚ × ℚ → ℚ × ℚ → ℚ) (l : List Shelter) : List (Shelter × ℚ) :=
  l.map (fun s => (s, round2 (calculate_distance geod s)))

/-- The sort key relation of line 184: compare stored (rounded) distances. -/
def distLE (a b : Shelter × ℚ) : Prop := a.2 ≤ b.2

instance : DecidableRel distLE := fun a b => inferInstanceAs (Decidable (a.2 ≤ b.2))

instance : IsTotal (Shelter × ℚ) distLE := ⟨fun a b => le_total a.2 b.2⟩

instance : IsTrans (Shelter × ℚ) distLE := ⟨fun _ _ _ h h2 => le_trans h h2⟩

/-- Line 184: `sort_values` ascending on the parsed stored distance. -/
def sortByDistance (l : List (Shelter × ℚ)) : List (Shelter × ℚ) :=
  l.insertionSort distLE

/-- Line 191: the 10-mile threshold. -/
def distance_threshold : ℚ := 10

/-- Line 192: keep the records whose parsed stored distance is `≤ 10`. -/
def withinRadiusOf (l : List (Shelter × ℚ)) : List (Shelter × ℚ) :=
  l.filter (fun x => decide (x.2 ≤ distance_threshold))

/-- Line 199: keep the records whose function is among the selected ones. -/
def selectFunctions (sel : List String) (l : List (Shelter × ℚ)) : List (Shelter × ℚ) :=
  l.filter (fun x => sel.contains x.1.function)

/-- Lines 166-199 as one transformation over the merged record list. -/
def pipelineFrom (geod : ℚ × ℚ → ℚ × ℚ → ℚ) (sel : List String)
    (l : List Shelter) : List (Shelter × ℚ) :=
  selectFunctions sel (withinRadiusOf (sortByDistance (withDistance geod (l.map enrich))))

/-- Model of `shelters_gdf_filtered` right after the radius filter (line 192). -/
def withinRadius (tf : ℚ → ℚ → ℚ × ℚ) (geod : ℚ × ℚ → ℚ × ℚ → ℚ)
    (api : List ApiRow) (csv : List CsvRow) : List (Shelter × ℚ) :=
  withinRadiusOf (sortByDistance (withDistance geod ((merged tf api csv).map enrich)))

/-- Line 195: `function_options`, the distinct functions of the
radius-filtered set (the default multiselect value, line 196). -/
def function_options (tf : ℚ → ℚ → ℚ × ℚ) (geod : ℚ × ℚ → ℚ × ℚ → ℚ)
    (api : List ApiRow) (csv : List CsvRow) : List String :=
  ((withinRadius tf geod api csv).map (fun x => x.1.function)).dedup

/-- Function `main` (lines 66-203), restricted to the final displayed table: when
both the fetch and the CSV load are empty the guard on line 73 skips the
pipeline (the script shows an error instead, line 236) and no table rows
are produced; otherwise the full pipeline output for the user's selected
functions `sel`. -/
def main (tf : ℚ → ℚ → ℚ × ℚ) (geod : ℚ × ℚ → ℚ × ℚ → ℚ)
    (api : List ApiRow) (csv : List CsvRow) (sel : List String) : List (Shelter × ℚ) :=
  if api.isEmpty && csv.isEmpty then [] else pipelineFrom geod sel (merged tf api csv)

/-- The `st.error` branch of line 236. -/
def mainError (api : List ApiRow) (csv : List CsvRow) : Option String :=
  if api.isEmpty && csv.isEmpty then some "Shelter data could not be processed." else none

/-!
Concrete external collaborators and inputs used by the witnesses and
counterexamples below.  The transformer `tfW` involves no rational
arithmetic (the raw `x` becomes the latitude and the raw `y` the
longitude), so kernel evaluation works on it; the geodesic functions
return fixed mileages chosen per scenario.
-/

/-- A concrete transformer for the scenarios: `always_xy` output
`(lon, lat) = (y, x)`, so the raw `x` is the latitude. -/
def tfW : ℚ → ℚ → ℚ × ℚ := fun x y => (y, x)

/-- A concrete geodesic mileage: 10.004 miles for the point with latitude 2
(the API record below), 0.47 miles for every other point. -/
def geodW : ℚ × ℚ → ℚ × ℚ → ℚ := fun _ p => if p.1 = 2 then 10004 / 1000 else 47 / 100

/-- An API record that converts to latitude 2, longitude 1. -/
def rowApi1 : ApiRow := ⟨"Api1", "Addr", some 2, some 1, "RemoteCat"⟩

/-- An API record with a malformed (non-numeric) `x_coord`. -/
def rowBad : ApiRow := ⟨"Bad", "Addr", none, some 1, "RemoteCat"⟩

/-- The API fetch of the main concrete scenario. -/
def apiW : List ApiRow := [rowApi1, rowBad]

/-- The CSV load of the main concrete scenario: a row named exactly
"Paul's Place" and a row whose name has a category mapping. -/
def csvW : List CsvRow := [⟨"Paul\x27s Place", 39, -76⟩, ⟨"Our Daily Bread", 39, -76⟩]

/-- The selected functions of the main concrete scenario. -/
def selW : List String := ["Food & Meals", "Unknown"]

/-- The enriched shelter obtained from `rowApi1`: its name is unmapped, so
its function is the default, and its remote category "RemoteCat" is gone. -/
def shApi1e : Shelter := ⟨"Api1", "Addr", 2, 1, "Unknown"⟩

/-- The enriched shelter obtained from the "Our Daily Bread" CSV row. -/
def shODBe : Shelter := ⟨"Our Daily Bread", "Not Available", 39, -76, "Food & Meals"⟩

/-- A geodesic mileage realizing a rounding tie: 1.004 miles for the point
with latitude 1 and 0.996 miles elsewhere; both round to 1.00. -/
def geodTie : ℚ × ℚ → ℚ × ℚ → ℚ := fun _ p => if p.1 = 1 then 1004 / 1000 else 996 / 1000

/-- The CSV load of the tie scenario: "A" at latitude 1 (true distance
1.004 under `geodTie`) listed before "B" (true distance 0.996). -/
def csvTie : List CsvRow := [⟨"A", 1, 5⟩, ⟨"B", 2, 6⟩]

/-- The enriched shelter obtained from the "A" row. -/
def shA : Shelter := ⟨"A", "Not Available", 1, 5, "Unknown"⟩

/-- The enriched shelter obtained from the "B" row. -/
def shB : Shelter := ⟨"B", "Not Available", 2, 6, "Unknown"⟩

/-- An API fetch holding a record that converts exactly to the coordinates
of Paul's Place. -/
def apiRef : List ApiRow :=
  [⟨"RefA", "Addr", some pauls_place_lat, some pauls_place_lon, "F"⟩]

/-- A CSV load holding a record at exactly the coordinates of Paul's
Place. -/
def csvRef : List CsvRow := [⟨"RefB", pauls_place_lat, pauls_place_lon⟩]

/-- A CSV load listing the same row twice (overlapping names and
coordinates). -/
def csvDup : List CsvRow := [⟨"Dup", 39, -76⟩, ⟨"Dup", 39, -76⟩]

/-!
Helper lemmas about the pipeline.  None of them is named as a claim
theorem; they are shared infrastructure.
-/

/-- The emptiness guard of line 73 is redundant for the displayed table:
when both inputs are empty the pipeline itself already produces no rows,
so `main` always agrees with the unguarded pipeline. -/
theorem main_eq_pipelineFrom (tf : ℚ → ℚ → ℚ × ℚ) (geod : ℚ × ℚ → ℚ × ℚ → ℚ)
    (api : List ApiRow) (csv : List CsvRow) (sel : List String) :
    main tf geod api csv sel = pipelineFrom geod sel (merged tf api csv) := by
  unfold main
  split
  · next h =>
    obtain ⟨h1, h2⟩ := Bool.and_eq_true_iff.mp h
    rw [List.isEmpty_iff] at h1 h2
    subst h1; subst h2
    rfl
  · rfl

/-- Enrichment keeps the record's name. -/
theorem enrich_name (s : Shelter) : (enrich s).name = s.name := rfl

/-- Enrichment recomputes the function column from the name alone. -/
theorem enrich_function (s : Shelter) :
    (enrich s).function = (function_mapping.lookup s.name).getD "Unknown" := rfl

/-- Destruction of membership in the final table: every displayed row is an
enriched merged record, stores the rounded distance, lies within the
radius, and carries a selected function. -/
theorem mem_main (tf : ℚ → ℚ → ℚ × ℚ) (geod : ℚ × ℚ → ℚ × ℚ → ℚ)
    (api : List ApiRow) (csv : List CsvRow) (sel : List String) {x : Shelter × ℚ}
    (hx : x ∈ main tf geod api csv sel) :
    (∃ s ∈ merged tf api csv, x.1 = enrich s) ∧
    x.2 = round2 (calculate_distance geod x.1) ∧
    x.2 ≤ distance_threshold ∧
    x.1.function ∈ sel := by
  rw [main_eq_pipelineFrom] at hx
  unfold pipelineFrom selectFunctions at hx
  obtain ⟨hx, hsel⟩ := List.mem_filter.mp hx
  unfold withinRadiusOf at hx
  obtain ⟨hx, hrad⟩ := List.mem_filter.mp hx
  unfold sortByDistance at hx
  rw [List.mem_insertionSort] at hx
  unfold withDistance at hx
  obtain ⟨s', hs', hx'⟩ := List.mem_map.mp hx
  obtain ⟨s, hs, hse⟩ := List.mem_map.mp hs'
  subst hse
  refine ⟨⟨s, hs, ?_⟩, ?_, ?_, ?_⟩
  · rw [← hx']
  · rw [← hx']
  · exact of_decide_eq_true hrad
  · simpa [List.contains] using hsel

/-- The final table is pairwise nondecreasing in the stored (rounded)
distance: the sort orders by it and the two filters preserve the order. -/
theorem main_pairwise (tf : ℚ → ℚ → ℚ × ℚ) (geod : ℚ × ℚ → ℚ × ℚ → ℚ)
    (api : List ApiRow) (csv : List CsvRow) (sel : List String) :
    (main tf geod api csv sel).Pairwise (fun a b => a.2 ≤ b.2) := by
  rw [main_eq_pipelineFrom]
  unfold pipelineFrom selectFunctions withinRadiusOf sortByDistance
  apply List.Pairwise.filter
  apply List.Pairwise.filter
  exact List.sorted_insertionSort distLE
    (withDistance geod ((merged tf api csv).map enrich))

/-- Dropping the API rows whose conversion fails does not change the
converted row list (they were dropped by `dropna` anyway). -/
theorem filterMap_apiToShelter_filter (tf : ℚ → ℚ → ℚ × ℚ) (api : List ApiRow) :
    (api.filter (fun a => (convert_coordinates tf a).isSome)).filterMap (apiToShelter tf) =
      api.filterMap (apiToShelter tf) := by
  induction api with
  | nil => rfl
  | cons a l ih =>
    cases h : convert_coordinates tf a with
    | none => simp [List.filter_cons, h, List.filterMap_cons, apiToShelter, ih]
    | some p => simp [List.filter_cons, h, List.filterMap_cons, apiToShelter, ih]

/-- Concrete run of the tie scenario: both true distances (1.004 and 0.996
miles) round to 1.00, the stable sort keeps the input order, and the table
lists "A" (true distance 1.004) before "B" (true distance 0.996). -/
theorem eval_tie :
    main tfW geodTie [] csvTie ["Unknown"] = [(shA, 1), (shB, 1)] := by
  have eA : enrich ⟨"A", "Not Available", 1, 5, "Unknown"⟩ = shA := by decide
  have eB : enrich ⟨"B", "Not Available", 2, 6, "Unknown"⟩ = shB := by decide
  simp only [main, merged, load_csv_data, apiToShelter, csvToShelter, pipelineFrom, csvTie,
    List.filterMap_nil, List.isEmpty_nil, List.isEmpty_cons, Bool.false_and, Bool.and_false,
    Bool.false_eq_true, if_false, List.filter_cons, List.filter_nil, List.map_cons,
    List.map_nil, List.nil_append, String.reduceBNe, ite_true, ite_false]
  rw [eA, eB]
  norm_num [withDistance, calculate_distance, round2, geodTie, shA, shB, sortByDistance,
    List.insertionSort, List.orderedInsert, distLE, withinRadiusOf, distance_threshold,
    selectFunctions]

/-- Concrete run of the main scenario: the malformed API record is dropped,
the "Paul's Place" CSV row is excluded, the remaining API record (true
distance 10.004 miles, displayed as 10.00) is kept by the radius filter,
and "Our Daily Bread" (0.47 miles) is ranked first. -/
theorem eval_main :
    main tfW geodW apiW csvW selW = [(shODBe, 47 / 100), (shApi1e, 10)] := by
  have eApi : enrich ⟨"Api1", "Addr", 2, 1, "RemoteCat"⟩ = shApi1e := by decide
  have eODB : enrich ⟨"Our Daily Bread", "Not Available", 39, -76, "Unknown"⟩ = shODBe := by
    decide
  simp only [main, merged, load_csv_data, apiToShelter, csvToShelter, convert_coordinates,
    pipelineFrom, apiW, csvW, selW, rowApi1, rowBad, tfW,
    List.filterMap_cons, List.filterMap_nil, List.isEmpty_nil, List.isEmpty_cons,
    Bool.false_and, Bool.and_false, Bool.false_eq_true, if_false, List.filter_cons,
    List.filter_nil, List.map_cons, List.map_nil, List.nil_append, List.cons_append,
    String.reduceBNe, ite_true, ite_false, Option.map_some', Option.map_none']
  rw [eApi, eODB]
  norm_num [withDistance, calculate_distance, round2, geodW, shApi1e, shODBe, sortByDistance,
    List.insertionSort, List.orderedInsert, distLE, withinRadiusOf, distance_threshold,
    selectFunctions]

/-!
Claim theorems.
-/

/-- C1, as stated, is false: the script overwrites the computed distance
with its two-decimal display string (line 181) and sorts by the parsed
rounded value (line 184), so within a rounding tie the true (unrounded)
distances can appear out of order.  Under `geodTie` the record "A" (true
distance 1.004 miles) precedes "B" (true distance 0.996 miles) in the
output, both displayed as 1.00. -/
theorem c1_counterexample :
    ¬ ∀ (tf : ℚ → ℚ → ℚ × ℚ) (geod : ℚ × ℚ → ℚ × ℚ → ℚ)
        (api : List ApiRow) (csv : List CsvRow) (sel : List String),
        (main tf geod api csv sel).Pairwise
          (fun a b => calculate_distance geod a.1 ≤ calculate_distance geod b.1) := by
  intro h
  have h2 := h tfW geodTie [] csvTie ["Unknown"]
  rw [eval_tie] at h2
  have h3 := List.rel_of_pairwise_cons h2 (List.mem_cons_self _ _)
  norm_num [calculate_distance, geodTie, shA, shB] at h3

/-- C1 (amended): for every pair of records A, B in the output, if A
precedes B then A's distance rounded to two decimal places is at most B's
rounded distance — the sort key is the stored display value, not the
unrounded distance — and every output row stores exactly that rounded
distance. -/
theorem c1_sorted_by_rounded_distance (tf : ℚ → ℚ → ℚ × ℚ)
    (geod : ℚ × ℚ → ℚ × ℚ → ℚ) (api : List ApiRow) (csv : List CsvRow)
    (sel : List String) :
    (main tf geod api csv sel).Pairwise
      (fun a b => round2 (calculate_distance geod a.1) ≤ round2 (calculate_distance geod b.1)) ∧
    ∀ x ∈ main tf geod api csv sel, x.2 = round2 (calculate_distance geod x.1) := by
  have hsnd : ∀ x ∈ main tf geod api csv sel, x.2 = round2 (calculate_distance geod x.1) :=
    fun x hx => (mem_main tf geod api csv sel hx).2.1
  refine ⟨?_, hsnd⟩
  have hp := main_pairwise tf geod api csv sel
  exact hp.imp_of_mem (fun ha hb hab => by rw [← hsnd _ ha, ← hsnd _ hb]; exact hab)

/-- Witness for `c1_sorted_by_rounded_distance` at the tie scenario. -/
theorem c1_sorted_by_rounded_distance_witness :
    (shA, (1 : ℚ)) ∈ main tfW geodTie [] csvTie ["Unknown"] ∧
    (1 : ℚ) = round2 (calculate_distance geodTie shA) :=
  ⟨by rw [eval_tie]; exact List.mem_cons_self _ _,
   (c1_sorted_by_rounded_distance tfW geodTie [] csvTie ["Unknown"]).2 _
     (by rw [eval_tie]; exact List.mem_cons_self _ _)⟩

/-- C2, as stated, is false: the radius filter (line 192) compares the
parsed rounded display value with the threshold, so a record whose true
distance is 10.004 miles (displayed as 10.00) is kept even though its true
distance exceeds 10 miles. -/
theorem c2_counterexample :
    ¬ ∀ (tf : ℚ → ℚ → ℚ × ℚ) (geod : ℚ × ℚ → ℚ × ℚ → ℚ)
        (api : List ApiRow) (csv : List CsvRow) (sel : List String) (x : Shelter × ℚ),
        x ∈ main tf geod api csv sel →
          calculate_distance geod x.1 ≤ distance_threshold := by
  intro h
  have h2 := h tfW geodW apiW csvW selW (shApi1e, 10)
    (by rw [eval_main]; exact List.mem_cons_of_mem _ (List.mem_cons_self _ _))
  norm_num [calculate_distance, geodW, shApi1e, distance_threshold] at h2

/-- C2 (amended): every record in the output has its distance rounded to
two decimal places at most the threshold (10 miles); a record whose
rounded distance is exactly the threshold is included and one whose
rounded distance is 10.01 is excluded, but the true unrounded distance may
exceed the threshold by up to half a hundredth. -/
theorem c2_rounded_within_threshold (tf : ℚ → ℚ → ℚ × ℚ)
    (geod : ℚ × ℚ → ℚ × ℚ → ℚ) (api : List ApiRow) (csv : List CsvRow)
    (sel : List String) {x : Shelter × ℚ} (hx : x ∈ main tf geod api csv sel) :
    round2 (calculate_distance geod x.1) ≤ distance_threshold := by
  obtain ⟨-, h2, h3, -⟩ := mem_main tf geod api csv sel hx
  rwa [h2] at h3

/-- Witness for `c2_rounded_within_threshold`: the record at true distance
10.004 miles sits exactly at the rounded boundary 10.00 and is included. -/
theorem c2_rounded_within_threshold_witness :
    (shApi1e, (10 : ℚ)) ∈ main tfW geodW apiW csvW selW ∧
    round2 (calculate_distance geodW shApi1e) ≤ distance_threshold :=
  ⟨by rw [eval_main]; exact List.mem_cons_of_mem _ (List.mem_cons_self _ _),
   @c2_rounded_within_threshold tfW geodW apiW csvW selW (shApi1e, 10)
     (by rw [eval_main]; exact List.mem_cons_of_mem _ (List.mem_cons_self _ _))⟩

/-- C3: when both the remote fetch and the CSV load are empty, the
pipeline produces an empty output table (and no conversion diagnostics);
the embedding is a total function, so no exception is possible. -/
theorem c3_empty_inputs_empty_output (tf : ℚ → ℚ → ℚ × ℚ)
    (geod : ℚ × ℚ → ℚ × ℚ → ℚ) (sel : List String) :
    main tf geod [] [] sel = [] ∧ conversionDiagnostics tf [] = [] :=
  ⟨rfl, rfl⟩

/-- C4: an input record whose coordinates cannot be converted (malformed,
modelled by a `none` raw coordinate) yields a diagnostic, and the output
is exactly what it would be had the failing records never been present:
the record is excluded and the rest of the pipeline proceeds.  Totality of
the embedding rules out an unhandled error. -/
theorem c4_conversion_failure_dropped (tf : ℚ → ℚ → ℚ × ℚ)
    (geod : ℚ × ℚ → ℚ × ℚ → ℚ) (api : List ApiRow) (csv : List CsvRow)
    (sel : List String) (r : ApiRow) (hr : r ∈ api)
    (hfail : convert_coordinates tf r = none) :
    ("Error converting coordinates for shelter " ++ r.name) ∈ conversionDiagnostics tf api ∧
    main tf geod api csv sel =
      main tf geod (api.filter (fun a => (convert_coordinates tf a).isSome)) csv sel := by
  constructor
  · exact List.mem_map.mpr ⟨r, List.mem_filter.mpr ⟨hr, by simp [hfail]⟩, rfl⟩
  · rw [main_eq_pipelineFrom, main_eq_pipelineFrom]
    unfold merged
    rw [filterMap_apiToShelter_filter]

/-- Witness for `c4_conversion_failure_dropped` at the malformed record
`rowBad` of the main scenario. -/
theorem c4_conversion_failure_dropped_witness :
    (rowBad ∈ apiW ∧ convert_coordinates tfW rowBad = none) ∧
    (("Error converting coordinates for shelter " ++ rowBad.name) ∈
        conversionDiagnostics tfW apiW ∧
      main tfW geodW apiW csvW selW =
        main tfW geodW (apiW.filter (fun a => (convert_coordinates tfW a).isSome)) csvW selW) :=
  ⟨⟨by decide, by decide⟩,
   c4_conversion_failure_dropped tfW geodW apiW csvW selW rowBad (by decide) (by decide)⟩

/-- C5, as stated, is false: the merge is a plain concatenation and the
only exclusion is by the CSV name "Paul's Place" (line 35); there is no
coordinate-based de-duplication, so a record whose coordinates coincide
exactly with Paul's Place is kept and the reference coordinates can occur
twice in the merged set (here once from the API and once from the CSV). -/
theorem c5_counterexample :
    ¬ ∀ (tf : ℚ → ℚ → ℚ × ℚ) (api : List ApiRow) (csv : List CsvRow),
        ((merged tf api csv).filter
          (fun s => decide (s.latitude = pauls_place_lat) &&
                    decide (s.longitude = pauls_place_lon))).length ≤ 1 := by
  intro h
  have h2 := h tfW apiRef csvRef
  have hm : merged tfW apiRef csvRef =
      [⟨"RefA", "Addr", pauls_place_lat, pauls_place_lon, "F"⟩,
       ⟨"RefB", "Not Available", pauls_place_lat, pauls_place_lon, "Unknown"⟩] := by
    simp [merged, load_csv_data, apiToShelter, convert_coordinates, csvToShelter, tfW,
      apiRef, csvRef, List.filterMap_cons]
  rw [hm] at h2
  norm_num [List.filter_cons] at h2

/-- C5 (amended): merging keeps every record of both sources, coordinates
included: each CSV row not named exactly "Paul's Place" occurs in the
merged set at least as often as in the CSV input, whatever its
coordinates (even those of the reference point); no de-duplication of any
kind happens during the merge. -/
theorem c5_no_dedup (tf : ℚ → ℚ → ℚ × ℚ) (api : List ApiRow) (csv : List CsvRow)
    (r : CsvRow) (h : r.Location ≠ "Paul\x27s Place") :
    csv.count r ≤ (merged tf api csv).count (csvToShelter r) := by
  unfold merged
  rw [List.count_append]
  have hinj : Function.Injective csvToShelter := by
    intro a b hab
    cases a; cases b
    simpa [csvToShelter, Shelter.mk.injEq, CsvRow.mk.injEq] using hab
  rw [List.count_map_of_injective _ _ hinj]
  unfold load_csv_data
  rw [List.count_filter (by simp [h])]
  omega

/-- Witness for `c5_no_dedup`: a CSV row listed twice survives twice. -/
theorem c5_no_dedup_witness :
    ((⟨"Dup", 39, -76⟩ : CsvRow).Location ≠ "Paul\x27s Place") ∧
    csvDup.count ⟨"Dup", 39, -76⟩ ≤ (merged tfW [] csvDup).count (csvToShelter ⟨"Dup", 39, -76⟩) :=
  ⟨by decide, c5_no_dedup tfW [] csvDup ⟨"Dup", 39, -76⟩ (by decide)⟩

/-- C6: every record of the displayed table has its function in the
caller-selected list, and with the default selection (the distinct
functions observed in the radius-filtered set, line 195-196) the category
filter keeps the whole radius-filtered set. -/
theorem c6_function_allowlist (tf : ℚ → ℚ → ℚ × ℚ) (geod : ℚ × ℚ → ℚ × ℚ → ℚ)
    (api : List ApiRow) (csv : List CsvRow) (sel : List String) :
    (∀ x ∈ main tf geod api csv sel, x.1.function ∈ sel) ∧
    main tf geod api csv (function_options tf geod api csv) =
      withinRadius tf geod api csv := by
  constructor
  · intro x hx
    exact (mem_main tf geod api csv sel hx).2.2.2
  · rw [main_eq_pipelineFrom]
    unfold pipelineFrom withinRadius selectFunctions
    apply List.filter_eq_self.mpr
    intro a ha
    have hmem : a.1.function ∈ function_options tf geod api csv :=
      List.mem_dedup.mpr (List.mem_map.mpr ⟨a, ha, rfl⟩)
    simpa [List.contains] using hmem

/-- Witness for `c6_function_allowlist` at the main scenario. -/
theorem c6_function_allowlist_witness :
    (shODBe, (47 : ℚ) / 100) ∈ main tfW geodW apiW csvW selW ∧
    shODBe.function ∈ selW :=
  ⟨by rw [eval_main]; exact List.mem_cons_self _ _,
   (c6_function_allowlist tfW geodW apiW csvW selW).1 _
     (by rw [eval_main]; exact List.mem_cons_self _ _)⟩

/-- C7: a CSV row named exactly "Paul's Place" never contributes a record
to the merged set: its image is not among the shelters the CSV source
supplies to the merge (line 35 filters it out before anything else). -/
theorem c7_pauls_place_excluded (csv : List CsvRow) (r : CsvRow)
    (hr : r ∈ csv) (hname : r.Location = "Paul\x27s Place") :
    csvToShelter r ∉ (load_csv_data csv).map csvToShelter := by
  intro hmem
  obtain ⟨r2, hr2, heq⟩ := List.mem_map.mp hmem
  have hLoc : r2.Location = r.Location := congrArg Shelter.name heq
  unfold load_csv_data at hr2
  have hbne := (List.mem_filter.mp hr2).2
  rw [hLoc, hname] at hbne
  simp at hbne

/-- Witness for `c7_pauls_place_excluded` at the main scenario's CSV. -/
theorem c7_pauls_place_excluded_witness :
    ((⟨"Paul\x27s Place", 39, -76⟩ : CsvRow) ∈ csvW ∧
      (⟨"Paul\x27s Place", 39, -76⟩ : CsvRow).Location = "Paul\x27s Place") ∧
    csvToShelter ⟨"Paul\x27s Place", 39, -76⟩ ∉ (load_csv_data csvW).map csvToShelter :=
  ⟨⟨by decide, rfl⟩, c7_pauls_place_excluded csvW ⟨"Paul\x27s Place", 39, -76⟩ (by decide) rfl⟩

/-- C8, as stated, is false in its default value: an output record whose
name has no entry in the lookup table is assigned the category "Unknown"
(capital U, line 167), not the lowercase "unknown" the claim names. -/
theorem c8_counterexample :
    function_mapping.lookup shApi1e.name = none ∧
    (shApi1e, (10 : ℚ)) ∈ main tfW geodW apiW csvW selW ∧
    shApi1e.function ≠ "unknown" :=
  ⟨by decide,
   by rw [eval_main]; exact List.mem_cons_of_mem _ (List.mem_cons_self _ _),
   by decide⟩

/-- C8 (amended): a record whose name has no entry in the static lookup
table is assigned the default category "Unknown" (with a capital U)
rather than causing an error (totality of the embedding). -/
theorem c8_unmapped_name_defaults (tf : ℚ → ℚ → ℚ × ℚ) (geod : ℚ × ℚ → ℚ × ℚ → ℚ)
    (api : List ApiRow) (csv : List CsvRow) (sel : List String) {x : Shelter × ℚ}
    (hx : x ∈ main tf geod api csv sel)
    (hmiss : function_mapping.lookup x.1.name = none) :
    x.1.function = "Unknown" := by
  obtain ⟨⟨s, hs, hxe⟩, -, -, -⟩ := mem_main tf geod api csv sel hx
  rw [hxe] at hmiss ⊢
  rw [enrich_name] at hmiss
  rw [enrich_function, hmiss]
  rfl

/-- Witness for `c8_unmapped_name_defaults` at the main scenario. -/
theorem c8_unmapped_name_defaults_witness :
    ((shApi1e, (10 : ℚ)) ∈ main tfW geodW apiW csvW selW ∧
      function_mapping.lookup shApi1e.name = none) ∧
    shApi1e.function = "Unknown" :=
  ⟨⟨by rw [eval_main]; exact List.mem_cons_of_mem _ (List.mem_cons_self _ _), by decide⟩,
   @c8_unmapped_name_defaults tfW geodW apiW csvW selW (shApi1e, 10)
     (by rw [eval_main]; exact List.mem_cons_of_mem _ (List.mem_cons_self _ _)) (by decide)⟩

/-- Updating the `function` field of every API row does not change the
enriched converted rows: line 167 recomputes the column from the name. -/
theorem map_enrich_filterMap_update (tf : ℚ → ℚ → ℚ × ℚ) (g : ApiRow → String)
    (api : List ApiRow) :
    ((api.map fun a => { a with function := g a }).filterMap (apiToShelter tf)).map enrich =
      (api.filterMap (apiToShelter tf)).map enrich := by
  induction api with
  | nil => rfl
  | cons a l ih =>
    have hconv : convert_coordinates tf { a with function := g a } =
        convert_coordinates tf a := by
      cases a; rfl
    rw [List.map_cons, List.filterMap_cons, List.filterMap_cons]
    cases h : convert_coordinates tf a with
    | none =>
      simp only [apiToShelter, hconv, h, Option.map_none']
      exact ih
    | some p =>
      simp only [apiToShelter, hconv, h, Option.map_some']
      rw [List.map_cons, List.map_cons, ih]
      congr 1

/-- C10: the enrichment overwrites the category of every record: each
output record's function equals the static lookup of its name (with
default "Unknown"), and replacing the category values supplied by the
remote source on every input record leaves the output unchanged. -/
theorem c10_function_overwritten (tf : ℚ → ℚ → ℚ × ℚ) (geod : ℚ × ℚ → ℚ × ℚ → ℚ)
    (api : List ApiRow) (csv : List CsvRow) (sel : List String) :
    (∀ x ∈ main tf geod api csv sel,
        x.1.function = (function_mapping.lookup x.1.name).getD "Unknown") ∧
    ∀ g : ApiRow → String,
      main tf geod (api.map fun a => { a with function := g a }) csv sel =
        main tf geod api csv sel := by
  constructor
  · intro x hx
    obtain ⟨⟨s, hs, hxe⟩, -, -, -⟩ := mem_main tf geod api csv sel hx
    rw [hxe, enrich_function, enrich_name]
  · intro g
    rw [main_eq_pipelineFrom, main_eq_pipelineFrom]
    unfold pipelineFrom merged
    rw [List.map_append, List.map_append, map_enrich_filterMap_update]

/-- Witness for `c10_function_overwritten`: the output record obtained
from the remote record `rowApi1` (input category "RemoteCat") carries the
lookup default instead. -/
theorem c10_function_overwritten_witness :
    (shApi1e, (10 : ℚ)) ∈ main tfW geodW apiW csvW selW ∧
    shApi1e.function = (function_mapping.lookup shApi1e.name).getD "Unknown" :=
  ⟨by rw [eval_main]; exact List.mem_cons_of_mem _ (List.mem_cons_self _ _),
   (c10_function_overwritten tfW geodW apiW csvW selW).1 _
     (by rw [eval_main]; exact List.mem_cons_of_mem _ (List.mem_cons_self _ _))⟩

end PaulsPlace
